import Mathlib

/-!
Shallow embedding of src/main.rs of ptwebhookt, a terminal wizard that sends
templated messages to a Discord webhook.

Modelling conventions:
* Rust std::collections::HashMap over String keys is modelled by RustHashMap:
  the declaration-order entry list together with the iteration order the map
  actually exposes.  Rust leaves the iteration order unspecified (it depends
  on a per-process random seed), but it always enumerates each entry exactly
  once, so the iteration order is constrained to be a permutation of the
  entries, with no duplicate keys.
* Machine integers are Nat.  The one place where a usize subtraction can wrap
  (fields.len() - 1 in next_field, when the map is empty) is modelled by
  usize_pred with release-mode wrapping semantics; a debug build would panic
  there instead, and either way the cursor is not clamped.
* Rust indexing that can panic (self.templates[idx]) is modelled by returning
  Option, with none standing for the panic.
* The field-value HashMap<String, String> is only ever read with get, written
  with insert and emptied with clear, so it is modelled by an association
  list with lookup and replace-or-append insertion.
* External collaborators are parameters: toml::from_str is a parse function
  argument of load_templates, and the reqwest response is an argument of
  send_webhook / classify_response.
-/

/-- Model of std::collections::HashMap<String, A>: entries is the list of
key-value pairs in declaration (insertion) order, iter is the order in which
the map actually enumerates them (keys() and by-reference iteration), which
Rust leaves unspecified but which is always a permutation of the entries,
with no duplicate keys. -/
structure RustHashMap (A : Type) where
  entries : List (String × A)
  iter : List (String × A)
  perm : iter.Perm entries
  keys_nodup : (entries.map Prod.fst).Nodup

/-- TemplateInfo from src/main.rs lines 70-74. -/
structure TemplateInfo where
  name : String
  description : String
deriving DecidableEq

/-- FieldConfig from src/main.rs lines 76-85. -/
structure FieldConfig where
  field_type : String
  label : String
  placeholder : Option String
  required : Option Bool
  options : Option (List String)
  default : Option String
deriving DecidableEq

/-- WebhookConfig from src/main.rs lines 87-92. -/
structure WebhookConfig where
  username : Option String
  avatar_url : Option String
  color : Option Nat
deriving DecidableEq

/-- TemplateConfig from src/main.rs lines 63-68; the fields section is a
HashMap<String, FieldConfig> in the source. -/
structure TemplateConfig where
  template : TemplateInfo
  fields : RustHashMap FieldConfig
  webhook : WebhookConfig

/-- DiscordField from src/main.rs lines 109-114. -/
structure DiscordField where
  name : String
  value : String
  inline : Bool
deriving DecidableEq

/-- DiscordEmbed from src/main.rs lines 101-107. -/
structure DiscordEmbed where
  title : Option String
  description : Option String
  color : Option Nat
  fields : List DiscordField
deriving DecidableEq

/-- DiscordWebhook from src/main.rs lines 94-99. -/
structure DiscordWebhook where
  username : Option String
  avatar_url : Option String
  embeds : List DiscordEmbed
deriving DecidableEq

/-- AppState from src/main.rs lines 116-123. -/
inductive AppState
  | TemplateSelection
  | FormFilling
  | Preview
  | Sending
  | Result (success : Bool) (message : String)
deriving DecidableEq

/-- App from src/main.rs lines 125-133.  template_list_state models
ListState.selected(); field_values models the HashMap<String, String> as an
association list. -/
structure App where
  state : AppState
  templates : List (String × TemplateConfig)
  selected_template : Option Nat
  template_list_state : Option Nat
  current_field : Nat
  field_values : List (String × String)
  webhook_url : String

/-- HashMap::get on the field-value map. -/
def map_get (m : List (String × String)) (k : String) : Option String :=
  (m.find? (fun p => p.fst == k)).map Prod.snd

/-- HashMap::insert on the field-value map: replace the binding when the key
is present, append a fresh binding otherwise. -/
def map_insert (m : List (String × String)) (k v : String) :
    List (String × String) :=
  if (m.find? (fun p => p.fst == k)).isSome then
    m.map (fun p => if p.fst == k then (k, v) else p)
  else m ++ [(k, v)]

/-- Rust str::starts_with. -/
def starts_with (s pre : String) : Bool :=
  pre.data.isPrefixOf s.data

/-- One character of the regex class backslash-d (ASCII model of the digit
class used in the webhook regex). -/
def isDigitCh (c : Char) : Bool := c.isDigit

/-- One character of the regex class a-zA-Z0-9_- used for the token part of
the webhook regex. -/
def isTokenCh (c : Char) : Bool := c.isAlphanum || c == '_' || c == '-'

/-- Whether the anchored regex (digits)+ slash (token chars)+ from
parse_webhook_url (src/main.rs line 46) matches the whole input.  Since
neither character class contains the slash, the regex matches exactly when a
nonempty digit prefix is followed by one slash and a nonempty token-character
suffix. -/
def webhook_regex_match (cs : List Char) : Bool :=
  let ds := cs.takeWhile isDigitCh
  let rest := cs.drop ds.length
  (!ds.isEmpty) &&
    (match rest with
     | '/' :: ts => (!ts.isEmpty) && ts.all isTokenCh
     | _ => false)

/-- The diagnostic returned by parse_webhook_url on unsupported input. -/
def invalid_format_message : String :=
  "Invalid webhook URL format. Supported formats:\n- https://discord.com/api/webhooks/ID/TOKEN\n- discord.com/api/webhooks/ID/TOKEN\n- ID/TOKEN"

/-- parse_webhook_url from src/main.rs lines 39-61: accept a full URL
unchanged, expand a bare ID/TOKEN pair, prefix a scheme-less discord.com
form, and reject everything else. -/
def parse_webhook_url (input : String) : Except String String :=
  if starts_with input "https://discord.com/api/webhooks/" then
    Except.ok input
  else if webhook_regex_match input.data then
    Except.ok ("https://discord.com/api/webhooks/" ++ input)
  else if starts_with input "discord.com/api/webhooks/" then
    Except.ok ("https://" ++ input)
  else
    Except.error invalid_format_message

/-- App::next_template from src/main.rs lines 155-170: cycle forward through
the template list with wraparound. -/
def next_template (app : App) : App :=
  if app.templates.isEmpty then app
  else
    let i := match app.template_list_state with
      | some i => if app.templates.length - 1 ≤ i then 0 else i + 1
      | none => 0
    { app with template_list_state := some i }

/-- App::previous_template from src/main.rs lines 172-187: cycle backward
through the template list with wraparound. -/
def previous_template (app : App) : App :=
  if app.templates.isEmpty then app
  else
    let i := match app.template_list_state with
      | some i => if i = 0 then app.templates.length - 1 else i - 1
      | none => 0
    { app with template_list_state := some i }

/-- The loop in App::select_template that re-fills the cleared field-value
map: for each field of the template, in the order in which the map iterates
them, insert the declared default or the empty string. -/
def insert_defaults (fields : List (String × FieldConfig))
    (m : List (String × String)) : List (String × String) :=
  match fields with
  | [] => m
  | (k, fc) :: rest => insert_defaults rest (map_insert m k (fc.default.getD ""))

/-- App::select_template from src/main.rs lines 189-206: when a list entry is
highlighted, remember it, switch to form filling with cursor 0, clear the
value map and re-fill it from the declared defaults.  none models the panic
of the direct index self.templates[selected]. -/
def select_template (app : App) : Option App :=
  match app.template_list_state with
  | none => some app
  | some sel =>
    match app.templates[sel]? with
    | none => none
    | some (_, t) =>
      some { app with
        selected_template := some sel,
        state := AppState.FormFilling,
        current_field := 0,
        field_values := insert_defaults t.fields.iter [] }

/-- Wrapping usize decrement: fields.len() - 1 in release mode wraps to
2 ^ 64 - 1 when the map is empty (a debug build would panic on the
overflow). -/
def usize_pred (n : Nat) : Nat :=
  if n = 0 then 2 ^ 64 - 1 else n - 1

/-- App::next_field from src/main.rs lines 208-215: advance the field cursor
while it is below fields.len() - 1 (usize arithmetic). -/
def next_field (app : App) : Option App :=
  match app.selected_template with
  | none => some app
  | some i =>
    match app.templates[i]? with
    | none => none
    | some (_, t) =>
      if app.current_field < usize_pred t.fields.iter.length then
        some { app with current_field := app.current_field + 1 }
      else some app

/-- App::previous_field from src/main.rs lines 217-221: move the field cursor
back while it is positive. -/
def previous_field (app : App) : App :=
  if 0 < app.current_field then
    { app with current_field := app.current_field - 1 }
  else app

/-- App::update_current_field from src/main.rs lines 223-231: look the cursor
up in the enumerated key list and, when it is in range, rebind that key; a
cursor out of range does nothing.  none models the panic of the direct
template index. -/
def update_current_field (app : App) (value : String) : Option App :=
  match app.selected_template with
  | none => some app
  | some i =>
    match app.templates[i]? with
    | none => none
    | some (_, t) =>
      match (t.fields.iter.map Prod.fst)[app.current_field]? with
      | none => some app
      | some field_name =>
        some { app with field_values := map_insert app.field_values field_name value }

/-- App::get_current_field_value from src/main.rs lines 233-242: the value
bound to the key at the cursor, defaulting to the empty string when the key
is unbound, the cursor is out of range, or no template is selected. -/
def get_current_field_value (app : App) : Option String :=
  match app.selected_template with
  | none => some ""
  | some i =>
    match app.templates[i]? with
    | none => none
    | some (_, t) =>
      match (t.fields.iter.map Prod.fst)[app.current_field]? with
      | none => some ""
      | some field_name => some ((map_get app.field_values field_name).getD "")

/-- The payload-field loop of App::send_webhook (src/main.rs lines 249-260):
walk the fields of the template in map-iteration order and keep a
(label, value, inline=false) entry for every field whose bound value is
nonempty; a missing or empty value contributes nothing. -/
def build_fields (fields : List (String × FieldConfig))
    (values : List (String × String)) : List DiscordField :=
  match fields with
  | [] => []
  | (field_name, fc) :: rest =>
    match map_get values field_name with
    | some v =>
      if v = "" then build_fields rest values
      else DiscordField.mk fc.label v false :: build_fields rest values
    | none => build_fields rest values

/-- The payload construction of App::send_webhook (src/main.rs lines
249-273): one embed carrying the template name as title, the template
description as body, the configured color, and the filtered field list. -/
def build_webhook (t : TemplateConfig) (values : List (String × String)) :
    DiscordWebhook :=
  { username := t.webhook.username,
    avatar_url := t.webhook.avatar_url,
    embeds := [{ title := some t.template.name,
                 description := some t.template.description,
                 color := t.webhook.color,
                 fields := build_fields t.fields.iter values }] }

/-- The reqwest error classification tests used in send_webhook:
is_timeout, is_connect, is_request, and the remaining causes. -/
inductive ReqErrorKind
  | timeout
  | connect
  | request
  | otherErr
deriving DecidableEq

/-- A transport failure as send_webhook observes it: which classification
test fires first, plus the Display text of the error. -/
structure ReqFailure where
  kind : ReqErrorKind
  display : String

/-- An HTTP response as send_webhook observes it: the numeric status code,
the Display rendering of the status (for example "404 Not Found"), and the
body text, with none standing for a body that could not be read. -/
structure HttpResponse where
  status : Nat
  statusDisplay : String
  body : Option String

/-- The per-kind error label chosen by the match in src/main.rs lines
300-309. -/
def network_error_label (k : ReqErrorKind) : String :=
  match k with
  | ReqErrorKind.timeout => "⏱️ Connection timeout"
  | ReqErrorKind.connect => "🌐 Connection error - Check your internet connection"
  | ReqErrorKind.request => "📨 Request format error"
  | ReqErrorKind.otherErr => "❌ Unknown connection error"

/-- The outcome classification of App::send_webhook (src/main.rs lines
290-313), as the (success flag, message) pair stored in AppState::Result:
a 2xx status succeeds; any other status reports the status and the body,
substituting "Unknown error" for an unreadable body; a transport failure
reports the kind label and the error text. -/
def classify_response (r : Except ReqFailure HttpResponse) : Bool × String :=
  match r with
  | Except.ok resp =>
    if 200 ≤ resp.status ∧ resp.status < 300 then
      (true, "✅ Message sent successfully!")
    else
      (false, "❌ HTTP " ++ resp.statusDisplay ++ ": " ++ resp.body.getD "Unknown error")
  | Except.error e => (false, network_error_label e.kind ++ ": " ++ e.display)

/-- App::send_webhook from src/main.rs lines 244-316.  The response argument
stands for what the network returns.  The result pairs the updated App with
the payload that was posted (none when no request was issued); none at the
outer level models the panic of the direct template index.  When no template
is selected the function does nothing and returns Ok. -/
def send_webhook (app : App) (response : Except ReqFailure HttpResponse) :
    Option (App × Option DiscordWebhook) :=
  match app.selected_template with
  | none => some (app, none)
  | some i =>
    match app.templates[i]? with
    | none => none
    | some (_, t) =>
      let payload := build_webhook t app.field_values
      let r := classify_response response
      some ({ app with state := AppState.Result r.fst r.snd }, some payload)

/-- The key codes run_app distinguishes. -/
inductive KeyCode
  | Char (c : Char)
  | Esc
  | Enter
  | Down
  | Up
  | Tab
  | BackTab
  | Backspace
  | OtherKey
deriving DecidableEq

/-- What one key event does to the interactive loop: continue with an
updated App, or return from run_app. -/
inductive StepResult
  | Continue (a : App)
  | Quit

/-- The AppState::Result arm of run_app (src/main.rs lines 447-455):
q quits; Enter, Esc and Space set the state back to TemplateSelection and
nothing else changes; other keys are ignored. -/
def handle_result_key (app : App) (k : KeyCode) : StepResult :=
  match k with
  | KeyCode.Char 'q' => StepResult.Quit
  | KeyCode.Enter => StepResult.Continue { app with state := AppState.TemplateSelection }
  | KeyCode.Esc => StepResult.Continue { app with state := AppState.TemplateSelection }
  | KeyCode.Char ' ' => StepResult.Continue { app with state := AppState.TemplateSelection }
  | _ => StepResult.Continue app

/-- One directory entry as load_templates sees it: the file stem
(path.file_stem(), with the unwrap_or fallback already applied), the
extension (path.extension()), and the file content (fs::read_to_string,
assumed readable). -/
structure DirEntry where
  stem : String
  ext : Option String
  content : String

/-- The directory loop of load_templates (src/main.rs lines 323-336): visit
the entries in directory order, parse every file with extension toml, and
collect (stem, config) pairs.  The question-mark operator on toml::from_str
propagates the first parse error, aborting the whole load. -/
def load_entries (parse : String → Except String TemplateConfig) :
    List DirEntry → Except String (List (String × TemplateConfig))
  | [] => Except.ok []
  | e :: rest =>
    if e.ext = some "toml" then
      match parse e.content with
      | Except.error msg => Except.error msg
      | Except.ok cfg =>
        match load_entries parse rest with
        | Except.error msg => Except.error msg
        | Except.ok l => Except.ok ((e.stem, cfg) :: l)
    else load_entries parse rest

/-- load_templates from src/main.rs lines 319-340: a missing directory
(none) yields the empty list; otherwise the entries are processed by
load_entries.  The parse argument stands for toml::from_str. -/
def load_templates (dir : Option (List DirEntry))
    (parse : String → Except String TemplateConfig) :
    Except String (List (String × TemplateConfig)) :=
  match dir with
  | none => Except.ok []
  | some entries => load_entries parse entries

/-- The field enumeration the code performs everywhere it walks a template:
template.fields.keys() in map-iteration order. -/
def field_names (t : TemplateConfig) : List String :=
  t.fields.iter.map Prod.fst

/-- The field order declared in the template source file: the keys in
declaration order. -/
def declared_field_names (t : TemplateConfig) : List String :=
  t.fields.entries.map Prod.fst

/-- The field list of the payload as the specification describes it: the
(label, value) pairs of the fields whose current value is nonempty, in the
order in which the template enumerates its fields, where the current value
of an unbound key is the empty string. -/
def payload_fields_spec (t : TemplateConfig) (values : List (String × String)) :
    List DiscordField :=
  t.fields.iter.filterMap (fun p =>
    if (map_get values p.fst).getD "" = "" then none
    else some (DiscordField.mk p.snd.label ((map_get values p.fst).getD "") false))


/-- A sample free-text field with a declared default, as a template file
would declare it. -/
def fc_a : FieldConfig :=
  { field_type := "text", label := "Alpha", placeholder := none,
    required := none, options := none, default := some "draft" }

/-- A sample free-text field without a default. -/
def fc_b : FieldConfig :=
  { field_type := "text", label := "Beta", placeholder := none,
    required := some true, options := none, default := none }

/-- A two-field map whose iteration order happens to agree with the
declaration order. -/
def fields_ab : RustHashMap FieldConfig :=
  { entries := [("alpha", fc_a), ("beta", fc_b)],
    iter := [("alpha", fc_a), ("beta", fc_b)],
    perm := List.Perm.refl _,
    keys_nodup := by decide }

/-- The same two-field map loaded in a process whose hash seed makes the map
iterate the entries in the opposite order; this is an equally valid value of
the unordered HashMap holding the same declared content. -/
def fields_ba : RustHashMap FieldConfig :=
  { entries := [("alpha", fc_a), ("beta", fc_b)],
    iter := [("beta", fc_b), ("alpha", fc_a)],
    perm := List.Perm.swap ("alpha", fc_a) ("beta", fc_b) [],
    keys_nodup := by decide }

/-- A sample template over fields_ab. -/
def tmpl_ab : TemplateConfig :=
  { template := { name := "Release", description := "Release announcement" },
    fields := fields_ab,
    webhook := { username := some "bot", avatar_url := none, color := some 123 } }

/-- The same declared template as tmpl_ab, loaded with the adverse iteration
order. -/
def tmpl_ba : TemplateConfig :=
  { template := { name := "Release", description := "Release announcement" },
    fields := fields_ba,
    webhook := { username := some "bot", avatar_url := none, color := some 123 } }

/-- A template whose fields section is empty. -/
def tmpl_nofields : TemplateConfig :=
  { template := { name := "Empty", description := "No fields" },
    fields := { entries := [], iter := [], perm := List.Perm.refl _,
                keys_nodup := List.nodup_nil },
    webhook := { username := none, avatar_url := none, color := none } }

/-- An App sitting on the selection screen with one template highlighted and
a stale value left over from an earlier session. -/
def app_sel : App :=
  { state := AppState.TemplateSelection,
    templates := [("release", tmpl_ab)],
    selected_template := none,
    template_list_state := some 0,
    current_field := 0,
    field_values := [("stale", "old")],
    webhook_url := "https://discord.com/api/webhooks/1/2" }

/-- An App on the result screen of an acknowledged run, still holding the
session data of that run. -/
def app_done : App :=
  { state := AppState.Result true "✅ Message sent successfully!",
    templates := [("release", tmpl_ab)],
    selected_template := some 0,
    template_list_state := some 0,
    current_field := 1,
    field_values := [("alpha", "draftx"), ("beta", "")],
    webhook_url := "https://discord.com/api/webhooks/1/2" }

/-- An App editing a template whose fields section is empty. -/
def app_empty_fields : App :=
  { state := AppState.FormFilling,
    templates := [("empty", tmpl_nofields)],
    selected_template := some 0,
    template_list_state := some 0,
    current_field := 0,
    field_values := [],
    webhook_url := "https://discord.com/api/webhooks/1/2" }

/-- An App editing tmpl_ab, with the cursor on the last field. -/
def app_form : App :=
  { state := AppState.FormFilling,
    templates := [("release", tmpl_ab), ("empty", tmpl_nofields)],
    selected_template := some 0,
    template_list_state := some 1,
    current_field := 1,
    field_values := [("alpha", "draftx"), ("beta", "")],
    webhook_url := "https://discord.com/api/webhooks/1/2" }

/-- An App with no template selected at all. -/
def app_none : App :=
  { state := AppState.Preview,
    templates := [("release", tmpl_ab)],
    selected_template := none,
    template_list_state := none,
    current_field := 0,
    field_values := [("alpha", "x")],
    webhook_url := "https://discord.com/api/webhooks/1/2" }

/-- A directory entry holding a template file that does not parse. -/
def entry_bad : DirEntry :=
  { stem := "bad", ext := some "toml", content := "broken" }

/-- A directory entry holding a template file that parses. -/
def entry_good : DirEntry :=
  { stem := "good", ext := some "toml", content := "good" }

/-- A stand-in for toml::from_str that accepts the content of entry_good and
rejects everything else. -/
def parse_stub : String → Except String TemplateConfig :=
  fun s => if s = "good" then Except.ok tmpl_ab else Except.error "bad toml"

theorem map_get_nil (k : String) : map_get [] k = none := rfl

theorem map_get_cons (p : String × String) (m : List (String × String))
    (k : String) :
    map_get (p :: m) k = if p.fst = k then some p.snd else map_get m k := by
  by_cases h : p.fst = k
  · rw [map_get, List.find?_cons_of_pos _ (by simpa [beq_iff_eq] using h), if_pos h]
    rfl
  · rw [map_get, List.find?_cons_of_neg _ (by simpa [beq_iff_eq] using h), if_neg h]
    rfl

theorem map_get_append (m₁ m₂ : List (String × String)) (k : String) :
    map_get (m₁ ++ m₂) k =
      match map_get m₁ k with
      | some v => some v
      | none => map_get m₂ k := by
  induction m₁ with
  | nil => rfl
  | cons p rest ih =>
    rw [List.cons_append, map_get_cons, map_get_cons]
    by_cases h : p.fst = k
    · rw [if_pos h, if_pos h]
    · rw [if_neg h, if_neg h, ih]

theorem map_get_map_replace (m : List (String × String)) (k v k' : String)
    (h : k' ≠ k) :
    map_get (m.map (fun p => if p.fst == k then (k, v) else p)) k' = map_get m k' := by
  induction m with
  | nil => rfl
  | cons p rest ih =>
    by_cases hp : p.fst = k
    · have hrepl : (if p.fst == k then (k, v) else p) = (k, v) := by
        simp [hp]
      rw [List.map_cons, hrepl, map_get_cons, map_get_cons]
      have h1 : ¬((k, v).fst = k') := fun hh => h hh.symm
      have h2 : ¬(p.fst = k') := fun hh => h (hp ▸ hh).symm
      rw [if_neg h1, if_neg h2, ih]
    · have hrepl : (if p.fst == k then (k, v) else p) = p := by
        simp [hp]
      rw [List.map_cons, hrepl, map_get_cons, map_get_cons]
      by_cases hq : p.fst = k'
      · rw [if_pos hq, if_pos hq]
      · rw [if_neg hq, if_neg hq, ih]

theorem map_get_map_replace_self (m : List (String × String)) (k v : String)
    (hf : (m.find? (fun p => p.fst == k)).isSome = true) :
    map_get (m.map (fun p => if p.fst == k then (k, v) else p)) k = some v := by
  induction m with
  | nil => simp [List.find?] at hf
  | cons p rest ih =>
    by_cases hp : p.fst = k
    · have hrepl : (if p.fst == k then (k, v) else p) = (k, v) := by
        simp [hp]
      rw [List.map_cons, hrepl, map_get_cons, if_pos rfl]
    · have hrepl : (if p.fst == k then (k, v) else p) = p := by
        simp [hp]
      have hf' : (rest.find? (fun p => p.fst == k)).isSome = true := by
        rwa [List.find?_cons_of_neg _ (by simpa [beq_iff_eq] using hp)] at hf
      rw [List.map_cons, hrepl, map_get_cons, if_neg hp]
      exact ih hf'

theorem map_get_insert (m : List (String × String)) (k v k' : String) :
    map_get (map_insert m k v) k' = if k' = k then some v else map_get m k' := by
  unfold map_insert
  by_cases hf : (m.find? (fun p => p.fst == k)).isSome = true
  · rw [if_pos hf]
    by_cases h : k' = k
    · subst h
      rw [if_pos rfl]
      exact map_get_map_replace_self m k' v hf
    · rw [if_neg h]
      exact map_get_map_replace m k v k' h
  · rw [if_neg hf]
    rw [map_get_append]
    by_cases h : k' = k
    · subst h
      have hnone : map_get m k' = none := by
        unfold map_get
        cases hx : m.find? (fun p => p.fst == k') with
        | none => rfl
        | some q => rw [hx] at hf; simp at hf
      rw [if_pos rfl, hnone]
      show map_get [(k', v)] k' = some v
      rw [map_get_cons, if_pos rfl]
    · rw [if_neg h]
      cases hx : map_get m k' with
      | some w => rfl
      | none =>
        show map_get [(k, v)] k' = none
        rw [map_get_cons, if_neg (fun hh => h hh.symm), map_get_nil]

theorem insert_defaults_notmem (fields : List (String × FieldConfig))
    (k : String) (hk : k ∉ fields.map Prod.fst) :
    ∀ m, map_get (insert_defaults fields m) k = map_get m k := by
  induction fields with
  | nil => intro m; rfl
  | cons p rest ih =>
    intro m
    have hk1 : k ≠ p.fst := by
      intro hh
      exact hk (by simp [hh])
    have hk2 : k ∉ rest.map Prod.fst := by
      intro hh
      exact hk (by simp [hh])
    calc map_get (insert_defaults (p :: rest) m) k
        = map_get (map_insert m p.fst (p.snd.default.getD "")) k := by
          rw [insert_defaults]
          exact ih hk2 _
      _ = map_get m k := by rw [map_get_insert, if_neg hk1]

theorem insert_defaults_mem (fields : List (String × FieldConfig))
    (hnd : (fields.map Prod.fst).Nodup) (k : String) (fc : FieldConfig)
    (hmem : (k, fc) ∈ fields) :
    ∀ m, map_get (insert_defaults fields m) k = some (fc.default.getD "") := by
  induction fields with
  | nil => cases hmem
  | cons p rest ih =>
    intro m
    rcases List.mem_cons.mp hmem with hhd | htl
    · subst hhd
      have hk2 : k ∉ rest.map Prod.fst := by
        have := (List.nodup_cons.mp hnd).1
        simpa using this
      rw [insert_defaults, insert_defaults_notmem rest k hk2, map_get_insert, if_pos rfl]
    · rw [insert_defaults]
      exact ih (List.nodup_cons.mp hnd).2 htl _

theorem build_fields_eq_filterMap (values : List (String × String)) :
    ∀ fields : List (String × FieldConfig),
      build_fields fields values = fields.filterMap (fun p =>
        if (map_get values p.fst).getD "" = "" then none
        else some (DiscordField.mk p.snd.label ((map_get values p.fst).getD "") false)) := by
  intro fields
  induction fields with
  | nil => rfl
  | cons p rest ih =>
    obtain ⟨k, fc⟩ := p
    rw [List.filterMap_cons]
    show (match map_get values k with
      | some v =>
        if v = "" then build_fields rest values
        else DiscordField.mk fc.label v false :: build_fields rest values
      | none => build_fields rest values) = _
    cases hx : map_get values k with
    | none => simpa using ih
    | some v =>
      by_cases hv : v = ""
      · subst hv
        simpa [hx] using ih
      · simp only [hx, Option.getD_some, if_neg hv]
        rw [ih]

theorem load_entries_err (parse : String → Except String TemplateConfig)
    (e : DirEntry) (msg : String) :
    ∀ entries : List DirEntry, e ∈ entries → e.ext = some "toml" →
      parse e.content = Except.error msg →
      ∃ m, load_entries parse entries = Except.error m := by
  intro entries
  induction entries with
  | nil => intro h; cases h
  | cons hd tl ih =>
    intro hmem hext hparse
    rcases List.mem_cons.mp hmem with hhd | htl
    · subst hhd
      simp only [load_entries, if_pos hext, hparse]
      exact ⟨msg, rfl⟩
    · by_cases hx : hd.ext = some "toml"
      · simp only [load_entries, if_pos hx]
        cases hp : parse hd.content with
        | error m => exact ⟨m, rfl⟩
        | ok cfg =>
          obtain ⟨m, hm⟩ := ih htl hext hparse
          rw [hm]
          exact ⟨m, rfl⟩
      · simp only [load_entries, if_neg hx]
        exact ih htl hext hparse

/-- Claim C1: the claim demands that field enumeration order be stable
across loads and equal to declaration order.  The code stores the fields in
a std HashMap, whose iteration order is an unspecified seed-dependent
permutation of the entries: tmpl_ab and tmpl_ba hold the same declared
entries, both are valid HashMap values, yet every enumeration the code
performs (field_names, used by rendering, cursor lookup, value
initialization and payload construction) differs between them, and for
tmpl_ba it differs from declaration order. -/
theorem c1_enumeration_order_not_declaration_order :
    tmpl_ba.fields.entries = tmpl_ab.fields.entries ∧
    field_names tmpl_ab = declared_field_names tmpl_ab ∧
    field_names tmpl_ba ≠ declared_field_names tmpl_ba ∧
    field_names tmpl_ba ≠ field_names tmpl_ab := by
  refine ⟨rfl, rfl, ?_, ?_⟩ <;> decide

/-- Claim C2, counterexample to the claim as stated: a directory holding one
file that fails to parse and one that parses makes the whole load return the
parse error, instead of skipping the bad file and returning the templates of
the remaining files. -/
theorem c2_counterexample :
    load_templates (some [entry_bad, entry_good]) parse_stub =
      Except.error "bad toml" ∧
    ∀ l, load_templates (some [entry_bad, entry_good]) parse_stub ≠
      Except.ok l := by
  refine ⟨rfl, ?_⟩
  intro l h
  rw [show load_templates (some [entry_bad, entry_good]) parse_stub =
    Except.error "bad toml" from rfl] at h
  exact Except.noConfusion h

/-- Claim C2 (amended): a missing template directory yields an empty store
and no error; but a file that fails to parse aborts the entire load with an
error, so no templates are returned from the remaining files. -/
theorem c2_load_missing_dir_and_parse_abort
    (parse : String → Except String TemplateConfig)
    (entries : List DirEntry) (e : DirEntry) (msg : String)
    (hmem : e ∈ entries) (hext : e.ext = some "toml")
    (hparse : parse e.content = Except.error msg) :
    load_templates none parse = Except.ok [] ∧
    ∃ m, load_templates (some entries) parse = Except.error m :=
  ⟨rfl, load_entries_err parse e msg entries hmem hext hparse⟩

theorem c2_load_missing_dir_and_parse_abort_witness :
    load_templates none parse_stub = Except.ok [] ∧
    ∃ m, load_templates (some [entry_bad, entry_good]) parse_stub =
      Except.error m :=
  c2_load_missing_dir_and_parse_abort parse_stub [entry_bad, entry_good]
    entry_bad "bad toml" (List.mem_cons_self _ _) rfl rfl

/-- Claim C3: the payload built by send_webhook has title = template name,
body = template description, accent color = the configured value or none,
and its field list is exactly the (label, value) pairs of the fields whose
current value is nonempty, in the order in which the template enumerates its
fields, with no entry carrying an empty value. -/
theorem c3_payload_construction (t : TemplateConfig)
    (values : List (String × String)) :
    build_webhook t values =
      { username := t.webhook.username,
        avatar_url := t.webhook.avatar_url,
        embeds := [{ title := some t.template.name,
                     description := some t.template.description,
                     color := t.webhook.color,
                     fields := payload_fields_spec t values }] } ∧
    (payload_fields_spec t values).all (fun f => f.value != "") = true := by
  constructor
  · unfold build_webhook payload_fields_spec
    rw [build_fields_eq_filterMap]
  · rw [List.all_eq_true]
    intro f hf
    rw [payload_fields_spec, List.mem_filterMap] at hf
    obtain ⟨p, _, hfp⟩ := hf
    by_cases hv : (map_get values p.fst).getD "" = ""
    · rw [if_pos hv] at hfp
      exact Option.noConfusion hfp
    · rw [if_neg hv] at hfp
      injection hfp with h
      subst h
      simpa [bne_iff_ne] using hv

/-- Claim C4: a 2xx response is classified as success with the success
message; a non-2xx response is classified as failure with a message carrying
the status and the response body, substituting the placeholder when the body
is unreadable; a transport failure is classified as failure with a message
determined by its kind, and the four kind labels (timeout, connection,
request format, unknown) are pairwise distinct. -/
theorem c4_dispatch_classification (resp : HttpResponse) (e : ReqFailure) :
    (200 ≤ resp.status ∧ resp.status < 300 →
      classify_response (Except.ok resp) =
        (true, "✅ Message sent successfully!")) ∧
    (¬(200 ≤ resp.status ∧ resp.status < 300) → ∀ b, resp.body = some b →
      classify_response (Except.ok resp) =
        (false, "❌ HTTP " ++ resp.statusDisplay ++ ": " ++ b)) ∧
    (¬(200 ≤ resp.status ∧ resp.status < 300) → resp.body = none →
      classify_response (Except.ok resp) =
        (false, "❌ HTTP " ++ resp.statusDisplay ++ ": " ++ "Unknown error")) ∧
    classify_response (Except.error e) =
      (false, network_error_label e.kind ++ ": " ++ e.display) ∧
    List.Pairwise (fun a b => network_error_label a ≠ network_error_label b)
      [ReqErrorKind.timeout, ReqErrorKind.connect, ReqErrorKind.request,
       ReqErrorKind.otherErr] := by
  refine ⟨?_, ?_, ?_, rfl, by decide⟩
  · intro h
    simp only [classify_response, if_pos h]
  · intro h b hb
    simp only [classify_response, if_neg h, hb, Option.getD_some]
  · intro h hb
    simp only [classify_response, if_neg h, hb, Option.getD_none]

theorem c4_dispatch_classification_witness :
    classify_response (Except.ok
        { status := 200, statusDisplay := "200 OK", body := none }) =
      (true, "✅ Message sent successfully!") ∧
    classify_response (Except.ok
        { status := 404, statusDisplay := "404 Not Found", body := some "Not Found" }) =
      (false, "❌ HTTP 404 Not Found: Not Found") ∧
    classify_response (Except.error
        { kind := ReqErrorKind.connect, display := "connection refused" }) =
      (false, "🌐 Connection error - Check your internet connection: connection refused") ∧
    classify_response (Except.error
        { kind := ReqErrorKind.timeout, display := "operation timed out" }) =
      (false, "⏱️ Connection timeout: operation timed out") := by
  refine ⟨?_, ?_, ?_, ?_⟩
  · exact (c4_dispatch_classification
      { status := 200, statusDisplay := "200 OK", body := none }
      { kind := ReqErrorKind.timeout, display := "" }).1 (by decide)
  · have h := (c4_dispatch_classification
      { status := 404, statusDisplay := "404 Not Found", body := some "Not Found" }
      { kind := ReqErrorKind.timeout, display := "" }).2.1 (by decide) "Not Found" rfl
    exact h.trans (by rfl)
  · have h := (c4_dispatch_classification
      { status := 200, statusDisplay := "200 OK", body := none }
      { kind := ReqErrorKind.connect, display := "connection refused" }).2.2.2.1
    exact h.trans (by rfl)
  · have h := (c4_dispatch_classification
      { status := 200, statusDisplay := "200 OK", body := none }
      { kind := ReqErrorKind.timeout, display := "operation timed out" }).2.2.2.1
    exact h.trans (by rfl)

/-- Claim C5, counterexample to the claim as stated: acknowledging a result
with Enter returns to the selection state, but the field-value mapping and
the selected template of the acknowledged run survive unchanged into the
selection state instead of being discarded. -/
theorem c5_counterexample :
    handle_result_key app_done KeyCode.Enter =
      StepResult.Continue { app_done with state := AppState.TemplateSelection } ∧
    ({ app_done with state := AppState.TemplateSelection } : App).field_values =
      [("alpha", "draftx"), ("beta", "")] ∧
    ({ app_done with state := AppState.TemplateSelection } : App).selected_template =
      some 0 :=
  ⟨rfl, rfl, rfl⟩

/-- Claim C5 (amended): in the Completed state, confirm (Enter or Space) and
cancel (Esc) both return to Selecting, and q quits; the transition changes
only the state tag, leaving the field-value mapping, the selected template
and every other component in place (they are reset only when a template is
next confirmed). -/
theorem c5_completed_transition (app : App) (k : KeyCode)
    (h : k = KeyCode.Enter ∨ k = KeyCode.Esc ∨ k = KeyCode.Char ' ') :
    (∃ app', handle_result_key app k = StepResult.Continue app' ∧
      app'.state = AppState.TemplateSelection ∧
      app'.templates = app.templates ∧
      app'.selected_template = app.selected_template ∧
      app'.template_list_state = app.template_list_state ∧
      app'.current_field = app.current_field ∧
      app'.field_values = app.field_values ∧
      app'.webhook_url = app.webhook_url) ∧
    handle_result_key app (KeyCode.Char 'q') = StepResult.Quit := by
  refine ⟨?_, rfl⟩
  rcases h with h | h | h <;> subst h <;>
    exact ⟨_, rfl, rfl, rfl, rfl, rfl, rfl, rfl, rfl⟩

theorem c5_completed_transition_witness :
    ∃ app', handle_result_key app_done KeyCode.Esc = StepResult.Continue app' ∧
      app'.state = AppState.TemplateSelection ∧
      app'.field_values = app_done.field_values := by
  obtain ⟨app', h1, h2, _, _, _, _, h7, _⟩ :=
    (c5_completed_transition app_done KeyCode.Esc (Or.inr (Or.inl rfl))).1
  exact ⟨app', h1, h2, h7⟩

/-- Claim C6: endpoint parsing maps a bare ID/TOKEN pair to the full URL,
prefixes https:// onto the scheme-less discord.com form, returns a full URL
unchanged, and rejects every input matching none of the three forms with the
descriptive error message. -/
theorem c6_parse_webhook_url_forms (s : String) :
    parse_webhook_url "123456/abcDEF" =
      Except.ok "https://discord.com/api/webhooks/123456/abcDEF" ∧
    parse_webhook_url "discord.com/api/webhooks/1/2" =
      Except.ok "https://discord.com/api/webhooks/1/2" ∧
    (starts_with s "https://discord.com/api/webhooks/" = true →
      parse_webhook_url s = Except.ok s) ∧
    parse_webhook_url "not-a-valid-token" =
      Except.error invalid_format_message ∧
    (starts_with s "https://discord.com/api/webhooks/" = false →
      webhook_regex_match s.data = false →
      starts_with s "discord.com/api/webhooks/" = false →
      parse_webhook_url s = Except.error invalid_format_message) := by
  refine ⟨rfl, rfl, ?_, rfl, ?_⟩
  · intro h
    unfold parse_webhook_url
    rw [if_pos h]
  · intro h1 h2 h3
    unfold parse_webhook_url
    rw [if_neg (by simp [h1]), if_neg (by simp [h2]), if_neg (by simp [h3])]

theorem c6_parse_webhook_url_forms_witness :
    parse_webhook_url "https://discord.com/api/webhooks/9/tok" =
      Except.ok "https://discord.com/api/webhooks/9/tok" ∧
    parse_webhook_url "hello world" = Except.error invalid_format_message := by
  constructor
  · exact (c6_parse_webhook_url_forms
      "https://discord.com/api/webhooks/9/tok").2.2.1 rfl
  · exact (c6_parse_webhook_url_forms "hello world").2.2.2.2 rfl rfl rfl

/-- Claim C7, counterexample to the claim as stated: on a selected template
with zero fields, next_field does not clamp the cursor: the bound
fields.len() - 1 underflows usize and the cursor is incremented from 0 to 1,
outside any valid field range (a debug build would panic on the overflow
instead). -/
theorem c7_counterexample :
    (app_empty_fields.templates.map (fun p => p.snd.fields.iter.length)) = [0] ∧
    app_empty_fields.selected_template = some 0 ∧
    app_empty_fields.current_field = 0 ∧
    next_field app_empty_fields =
      some { app_empty_fields with current_field := 1 } :=
  ⟨rfl, rfl, rfl, rfl⟩

/-- Claim C7 (amended): template navigation wraps at both ends; for a
selected template with at least one field and the cursor in range, field
navigation clamps at both ends: next_field advances the cursor to
min (cursor + 1) (field_count - 1), and previous_field moves it to
cursor - 1 (staying at 0), changing nothing else. -/
theorem c7_navigation (app : App) (i j : Nat) (nm : String)
    (t : TemplateConfig) :
    (app.templates ≠ [] → app.template_list_state = some i →
      app.templates.length - 1 ≤ i →
      (next_template app).template_list_state = some 0) ∧
    (app.templates ≠ [] → app.template_list_state = some i →
      i < app.templates.length - 1 →
      (next_template app).template_list_state = some (i + 1)) ∧
    (app.templates ≠ [] → app.template_list_state = some 0 →
      (previous_template app).template_list_state =
        some (app.templates.length - 1)) ∧
    (app.templates ≠ [] → app.template_list_state = some i → i ≠ 0 →
      (previous_template app).template_list_state = some (i - 1)) ∧
    (app.selected_template = some j → app.templates[j]? = some (nm, t) →
      0 < t.fields.iter.length → app.current_field < t.fields.iter.length →
      next_field app = some { app with current_field := min (app.current_field + 1) (t.fields.iter.length - 1) }) ∧
    (previous_field app).current_field = app.current_field - 1 ∧
    (previous_field app).field_values = app.field_values ∧
    (previous_field app).selected_template = app.selected_template ∧
    (previous_field app).state = app.state := by
  have hprev : ∀ happ : App, (previous_field happ).current_field =
      happ.current_field - 1 ∧
      (previous_field happ).field_values = happ.field_values ∧
      (previous_field happ).selected_template = happ.selected_template ∧
      (previous_field happ).state = happ.state := by
    intro happ
    unfold previous_field
    by_cases hc : 0 < happ.current_field
    · rw [if_pos hc]
      exact ⟨rfl, rfl, rfl, rfl⟩
    · rw [if_neg hc]
      refine ⟨?_, rfl, rfl, rfl⟩
      omega
  refine ⟨?_, ?_, ?_, ?_, ?_, (hprev app).1, (hprev app).2.1,
    (hprev app).2.2.1, (hprev app).2.2.2⟩
  · intro hne hsel hle
    have hne' : app.templates.isEmpty = false := by
      cases happ : app.templates with
      | nil => exact absurd happ hne
      | cons a as => rfl
    unfold next_template
    rw [hne', hsel]
    simp only [Bool.false_eq_true, if_false, if_pos hle]
  · intro hne hsel hlt
    have hne' : app.templates.isEmpty = false := by
      cases happ : app.templates with
      | nil => exact absurd happ hne
      | cons a as => rfl
    have hnle : ¬ app.templates.length - 1 ≤ i := by omega
    unfold next_template
    rw [hne', hsel]
    simp only [Bool.false_eq_true, if_false, if_neg hnle]
  · intro hne hsel
    have hne' : app.templates.isEmpty = false := by
      cases happ : app.templates with
      | nil => exact absurd happ hne
      | cons a as => rfl
    unfold previous_template
    rw [hne', hsel]
    simp
  · intro hne hsel hi
    have hne' : app.templates.isEmpty = false := by
      cases happ : app.templates with
      | nil => exact absurd happ hne
      | cons a as => rfl
    unfold previous_template
    rw [hne', hsel]
    simp only [Bool.false_eq_true, if_false, if_neg hi]
  · intro hj ht hpos hcur
    have hup : usize_pred t.fields.iter.length = t.fields.iter.length - 1 := by
      unfold usize_pred
      rw [if_neg (by omega)]
    simp only [next_field, hj, ht, hup]
    by_cases hc : app.current_field < t.fields.iter.length - 1
    · rw [if_pos hc]
      have hmin : min (app.current_field + 1) (t.fields.iter.length - 1) =
          app.current_field + 1 := by omega
      rw [hmin]
    · rw [if_neg hc]
      have hmin : min (app.current_field + 1) (t.fields.iter.length - 1) =
          app.current_field := by omega
      rw [hmin, ← hj]

theorem c7_navigation_witness :
    (next_template app_form).template_list_state = some 0 ∧
    (previous_template app_sel).template_list_state = some 0 ∧
    next_field app_form = some app_form ∧
    (previous_field app_form).current_field = 0 := by
  refine ⟨?_, ?_, ?_, ?_⟩
  · exact (c7_navigation app_form 1 0 "release" tmpl_ab).1
      (List.cons_ne_nil _ _) rfl (by decide)
  · exact ((c7_navigation app_sel 0 0 "release" tmpl_ab).2.2.1
      (List.cons_ne_nil _ _) rfl).trans (by rfl)
  · have h := (c7_navigation app_form 1 0 "release" tmpl_ab).2.2.2.2.1
      rfl rfl (by decide) (by decide)
    exact h.trans (by rfl)
  · exact ((c7_navigation app_form 1 0 "release" tmpl_ab).2.2.2.2.2.1).trans
      (by rfl)

/-- Claim C8: confirming the highlighted template switches to form filling
with cursor 0 and rebuilds the value mapping from scratch: every field key
of the selected template is bound to its declared default (or the empty
string), and no key from a previous session survives. -/
theorem c8_select_template_rebuilds_values (app : App) (i : Nat) (nm : String)
    (t : TemplateConfig)
    (hsel : app.template_list_state = some i)
    (ht : app.templates[i]? = some (nm, t)) :
    ∃ app', select_template app = some app' ∧
      app'.state = AppState.FormFilling ∧
      app'.current_field = 0 ∧
      app'.selected_template = some i ∧
      app'.field_values = insert_defaults t.fields.iter [] ∧
      (∀ k fc, (k, fc) ∈ t.fields.iter →
        map_get app'.field_values k = some (fc.default.getD "")) ∧
      (∀ k, k ∉ t.fields.iter.map Prod.fst →
        map_get app'.field_values k = none) := by
  have hnd : (t.fields.iter.map Prod.fst).Nodup :=
    ((t.fields.perm.map Prod.fst).nodup_iff).mpr t.fields.keys_nodup
  refine ⟨{ app with selected_template := some i,
                     state := AppState.FormFilling,
                     current_field := 0,
                     field_values := insert_defaults t.fields.iter [] },
    ?_, rfl, rfl, rfl, rfl, ?_, ?_⟩
  · simp only [select_template, hsel, ht]
  · intro k fc hmem
    exact insert_defaults_mem t.fields.iter hnd k fc hmem []
  · intro k hk
    rw [insert_defaults_notmem t.fields.iter k hk []]
    rfl

theorem c8_select_template_rebuilds_values_witness :
    ∃ app', select_template app_sel = some app' ∧
      app'.state = AppState.FormFilling ∧
      app'.current_field = 0 ∧
      map_get app'.field_values "alpha" = some "draft" ∧
      map_get app'.field_values "beta" = some "" ∧
      map_get app'.field_values "stale" = none := by
  obtain ⟨app', h1, h2, h3, _, _, h6, h7⟩ :=
    c8_select_template_rebuilds_values app_sel 0 "release" tmpl_ab rfl rfl
  refine ⟨app', h1, h2, h3, ?_, ?_, ?_⟩
  · exact h6 "alpha" fc_a (by decide)
  · exact h6 "beta" fc_b (by decide)
  · exact h7 "stale" (by decide)

/-- Claim C9: reading or writing the value at the field cursor is total:
with no template selected, or with the cursor out of range for the selected
template, get_current_field_value returns the empty string and
update_current_field leaves the App unchanged, and neither operation panics
(the result is never none). -/
theorem c9_cursor_access_total (app : App) (i : Nat) (nm : String)
    (t : TemplateConfig) :
    (app.selected_template = none →
      get_current_field_value app = some "" ∧
      ∀ v, update_current_field app v = some app) ∧
    (app.selected_template = some i → app.templates[i]? = some (nm, t) →
      t.fields.iter.length ≤ app.current_field →
      get_current_field_value app = some "" ∧
      ∀ v, update_current_field app v = some app) := by
  constructor
  · intro h
    constructor
    · unfold get_current_field_value
      rw [h]
    · intro v
      unfold update_current_field
      rw [h]
  · intro hsel ht hcur
    have hnone : (t.fields.iter.map Prod.fst)[app.current_field]? = none :=
      List.getElem?_eq_none (by simpa using hcur)
    constructor
    · simp only [get_current_field_value, hsel, ht, hnone]
    · intro v
      simp only [update_current_field, hsel, ht, hnone]

theorem c9_cursor_access_total_witness :
    get_current_field_value app_none = some "" ∧
    update_current_field app_none "x" = some app_none ∧
    get_current_field_value app_empty_fields = some "" ∧
    update_current_field app_empty_fields "x" = some app_empty_fields := by
  refine ⟨?_, ?_, ?_, ?_⟩
  · exact ((c9_cursor_access_total app_none 0 "" tmpl_ab).1 rfl).1
  · exact ((c9_cursor_access_total app_none 0 "" tmpl_ab).1 rfl).2 "x"
  · exact ((c9_cursor_access_total app_empty_fields 0 "empty"
      tmpl_nofields).2 rfl rfl (by decide)).1
  · exact ((c9_cursor_access_total app_empty_fields 0 "empty"
      tmpl_nofields).2 rfl rfl (by decide)).2 "x"

/-- Claim C10: invoking send_webhook with no template selected is a complete
no-op: it returns Ok, issues no request (the posted payload is none), and
the App — state tag, templates, selected template, cursor, field values and
webhook URL — is returned unchanged. -/
theorem c10_send_webhook_no_template_noop (app : App)
    (r : Except ReqFailure HttpResponse)
    (h : app.selected_template = none) :
    send_webhook app r = some (app, none) := by
  unfold send_webhook
  rw [h]

theorem c10_send_webhook_no_template_noop_witness :
    send_webhook app_none (Except.ok
      { status := 200, statusDisplay := "200 OK", body := none }) =
      some (app_none, none) :=
  c10_send_webhook_no_template_noop app_none _ rfl
